import Mathlib

/-!
Verification development for the DocumentRefinery ingestion service.

The definitions below are a shallow embedding of the Python source under
src/document_refinery/ (Django views, Celery tasks, models).  Wall-clock
instants are modelled as natural numbers counting microseconds (Python
datetimes have microsecond resolution); machine calls to external
collaborators (the malware scanner, the JSON encoder, the HMAC library,
the HTTP client) appear as explicit parameters or as small inductive
outcome types.
-/

namespace DocRefinery

/-- documents/models.py, DocumentStatus choices. -/
inductive DocumentStatus
  | UPLOADED
  | CLEAN
  | INFECTED
  | DELETED
  deriving DecidableEq, Repr

/-- documents/models.py, IngestionJobStatus choices. -/
inductive IngestionJobStatus
  | QUEUED
  | RUNNING
  | SUCCEEDED
  | FAILED
  | CANCELED
  | QUARANTINED
  deriving DecidableEq, Repr

/-- documents/models.py, IngestionStage choices. -/
inductive IngestionStage
  | SCANNING
  | CONVERTING
  | EXPORTING
  | CHUNKING
  | FINALIZING
  deriving DecidableEq, Repr

/-- documents/models.py, WebhookDeliveryStatus choices. -/
inductive WebhookDeliveryStatus
  | PENDING
  | RETRYING
  | DELIVERED
  | FAILED
  deriving DecidableEq, Repr

/-- The terminal job statuses of the state machine. -/
def IngestionJobStatus.isTerminal : IngestionJobStatus → Bool
  | .SUCCEEDED => true
  | .FAILED => true
  | .CANCELED => true
  | .QUARANTINED => true
  | _ => false

/-- documents/models.py, Document: the fields the ingestion pipeline
reads and writes.  Paths are kept as strings relative to the data root. -/
structure Document where
  status : DocumentStatus
  storageRelpathQuarantine : String
  storageRelpathClean : Option String
  deriving DecidableEq, Repr

/-- documents/models.py, IngestionJob: the fields the pipeline state
machine and the webhook payload read and write.  Timestamps are
microsecond instants; None models SQL NULL. -/
structure IngestionJob where
  id : Nat
  uuid : String
  tenantId : Nat
  documentId : Nat
  externalUuid : Option String
  profile : Option String
  status : IngestionJobStatus
  stage : IngestionStage
  queuedAt : Option Nat
  startedAt : Option Nat
  finishedAt : Option Nat
  durationMs : Option Nat
  scanMs : Option Nat
  errorCode : String
  errorMessage : String
  errorDetails : Option (List (String × String))
  celeryTaskId : String
  createdAt : Nat
  modifiedAt : Nat
  deriving DecidableEq, Repr

/-- documents/models.py, IngestionJob.recompute_durations: when both
started_at and finished_at are set, duration_ms becomes
int(delta.total_seconds() * 1000).  For the non-negative deltas produced
by the pipeline this is the truncation of the microsecond difference
divided by 1000 (modelled with exact integer arithmetic; Python computes
it through a float of ample precision for these magnitudes). -/
def recomputeDurations (j : IngestionJob) : IngestionJob :=
  match j.startedAt, j.finishedAt with
  | some s, some f => { j with durationMs := some ((f - s) / 1000) }
  | _, _ => j

/-- documents/tasks.py, _mark_failed: set FAILED, record the error, set
finished_at to now and recompute the duration.  (The webhook enqueue the
source performs afterwards is modelled separately by queueJobWebhooks.) -/
def markFailed (j : IngestionJob) (code message : String)
    (details : Option (List (String × String))) (now : Nat) : IngestionJob :=
  recomputeDurations
    { j with
      status := .FAILED
      errorCode := code
      errorMessage := message
      errorDetails := some (details.getD [])
      finishedAt := some now }

/-- documents/tasks.py, _is_canceled. -/
def isCanceled (j : IngestionJob) : Bool :=
  j.status == .CANCELED

/-- Outcome of the scanner.scan call in documents/tasks.py:
a transport exception, a non-mapping response, or a mapping from file
paths to (status, reason) pairs. -/
inductive ScanCall
  | exc (message : String)
  | nonMapping
  | mapping (results : List (String × String × String))
  deriving DecidableEq, Repr

/-- Association-list lookup mirroring dict.get with a default. -/
def dictGetD (m : List (String × String × String)) (key : String)
    (dflt : String × String) : String × String :=
  match m.find? (fun p => p.1 == key) with
  | some p => p.2
  | none => dflt

/-- Result of one pipeline stage task: the updated job and document and
whether the task re-raised (aborting the Celery chain). -/
structure StageResult where
  job : IngestionJob
  document : Document
  raised : Bool
  deriving DecidableEq, Repr

/-- documents/tasks.py, scan_pdf_task.  The job is reloaded, the
canceled guard applies, stage/status/started_at are set, then the
scanner call (given here as the ScanCall outcome) is dispatched exactly
as in the source: exception to CLAMAV_UNAVAILABLE, non-mapping to
CLAMAV_INVALID_RESPONSE, then results.get(abs_path, (ERROR, No scan
result)) with FOUND, ERROR and clean branches.  taskId models
self.request.id, elapsedMs the monotonic scan_ms measurement, cleanRel
the computed clean relative path. -/
def scanPdfTask (j : IngestionJob) (d : Document) (now : Nat)
    (taskId : Option String) (call : ScanCall) (elapsedMs : Nat)
    (cleanRel : String) : StageResult :=
  if isCanceled j then
    { job := j, document := d, raised := false }
  else
    let j := { j with
      stage := .SCANNING
      startedAt := if j.startedAt.isNone then some now else j.startedAt
      status := .RUNNING
      celeryTaskId := taskId.getD j.celeryTaskId }
    match call with
    | .exc message =>
        { job := markFailed j "CLAMAV_UNAVAILABLE" message none now
          document := d, raised := true }
    | .nonMapping =>
        { job := markFailed j "CLAMAV_INVALID_RESPONSE"
            "Invalid scan response from ClamAV" none now
          document := d, raised := true }
    | .mapping results =>
        let sr := dictGetD results d.storageRelpathQuarantine ("ERROR", "No scan result")
        if sr.1 == "FOUND" then
          { job := recomputeDurations { j with
              status := .QUARANTINED
              errorCode := "VIRUS_FOUND"
              errorMessage := if sr.2 == "" then "Virus detected" else sr.2
              finishedAt := some now }
            document := { d with status := .INFECTED }
            raised := true }
        else if sr.1 == "ERROR" then
          { job := markFailed j "VIRUS_SCAN_ERROR"
              (if sr.2 == "" then "Scan error" else sr.2) none now
            document := d, raised := true }
        else
          { job := { j with scanMs := some elapsedMs }
            document := { d with status := .CLEAN, storageRelpathClean := some cleanRel }
            raised := false }

/-- documents/tasks.py, finalize_job_task: canceled guard, then stage
FINALIZING, status SUCCEEDED, finished_at now, recomputed duration and
the worker task id. -/
def finalizeJobTask (j : IngestionJob) (now : Nat) (taskId : Option String) :
    IngestionJob :=
  if isCanceled j then j
  else
    { recomputeDurations { j with
        stage := .FINALIZING
        status := .SUCCEEDED
        finishedAt := some now } with
      celeryTaskId := (taskId.getD j.celeryTaskId) }

/-- documents/tasks.py, docling_convert_task, reduced to its control
skeleton: the canceled guard, the stage-entry writes, and the dispatch
on the converter outcome (Except.error models the engine exception that
is marked DOCLING_CONVERT_FAILED and re-raised). -/
def doclingConvertTask (j : IngestionJob) (d : Document) (now : Nat)
    (taskId : Option String) (outcome : Except String Unit) : StageResult :=
  if isCanceled j then
    { job := j, document := d, raised := false }
  else
    let j := { j with
      stage := .CONVERTING
      status := .RUNNING
      celeryTaskId := taskId.getD j.celeryTaskId }
    match outcome with
    | .error message =>
        { job := markFailed j "DOCLING_CONVERT_FAILED" message none now
          document := d, raised := true }
    | .ok _ =>
        { job := j, document := d, raised := false }

/-- documents/tasks.py, export_artifacts_task, reduced to its control
skeleton: the canceled guard, the stage-entry writes, and the dispatch
on the artifact-load outcome (Except.error models the load failure that
is marked DOCLING_LOAD_FAILED and re-raised). -/
def exportArtifactsTask (j : IngestionJob) (d : Document) (now : Nat)
    (taskId : Option String) (outcome : Except String Unit) : StageResult :=
  if isCanceled j then
    { job := j, document := d, raised := false }
  else
    let j := { j with
      stage := .EXPORTING
      status := .RUNNING
      celeryTaskId := taskId.getD j.celeryTaskId }
    match outcome with
    | .error message =>
        { job := markFailed j "DOCLING_LOAD_FAILED" message none now
          document := d, raised := true }
    | .ok _ =>
        { job := j, document := d, raised := false }

/-- Result of the cancel endpoint: the (possibly unchanged) job and the
HTTP status code returned. -/
structure CancelResult where
  job : IngestionJob
  httpStatus : Nat
  errorCode : Option String
  deriving DecidableEq, Repr

/-- documents/views.py, JobViewSet.cancel: only QUEUED or RUNNING jobs
are cancelable; on success the job becomes CANCELED with finished_at set
to now and the duration recomputed. -/
def cancelJob (j : IngestionJob) (now : Nat) : CancelResult :=
  if j.status ≠ .QUEUED ∧ j.status ≠ .RUNNING then
    { job := j, httpStatus := 400, errorCode := some "NOT_CANCELABLE" }
  else
    { job := recomputeDurations { j with
        status := .CANCELED
        finishedAt := some now }
      httpStatus := 200
      errorCode := none }

/-- Enum value strings of IngestionJobStatus (Django TextChoices). -/
def statusValue : IngestionJobStatus → String
  | .QUEUED => "QUEUED"
  | .RUNNING => "RUNNING"
  | .SUCCEEDED => "SUCCEEDED"
  | .FAILED => "FAILED"
  | .CANCELED => "CANCELED"
  | .QUARANTINED => "QUARANTINED"

/-- Enum value strings of IngestionStage (Django TextChoices). -/
def stageValue : IngestionStage → String
  | .SCANNING => "SCANNING"
  | .CONVERTING => "CONVERTING"
  | .EXPORTING => "EXPORTING"
  | .CHUNKING => "CHUNKING"
  | .FINALIZING => "FINALIZING"

/-- JSON values as they occur in the job webhook payload: strings,
numbers, null, and the error-details blob (a flat string map here). -/
inductive JsonVal
  | null
  | str (s : String)
  | num (n : Nat)
  | obj (fields : List (String × String))
  deriving DecidableEq, Repr

/-- documents/tasks.py, _isoformat: None stays None (JSON null), a set
datetime is rendered by the isoformat primitive, which the embedding
takes as the parameter iso. -/
def isoOpt (iso : Nat → String) : Option Nat → JsonVal
  | none => .null
  | some t => .str (iso t)

/-- documents/tasks.py, _job_webhook_payload: the JSON object built for
a job.updated event, with its fields in source order. -/
def jobWebhookPayload (iso : Nat → String) (j : IngestionJob)
    (prevStatus prevStage : Option String) : List (String × JsonVal) :=
  [("event", .str "job.updated"),
   ("job_id", .num j.id),
   ("job_uuid", .str j.uuid),
   ("document_id", .num j.documentId),
   ("external_uuid", match j.externalUuid with | some u => .str u | none => .null),
   ("status", .str (statusValue j.status)),
   ("stage", .str (stageValue j.stage)),
   ("previous_status", match prevStatus with | some s => .str s | none => .null),
   ("previous_stage", match prevStage with | some s => .str s | none => .null),
   ("error_code", .str j.errorCode),
   ("error_message", .str j.errorMessage),
   ("error_details", match j.errorDetails with | some m => .obj m | none => .null),
   ("queued_at", isoOpt iso j.queuedAt),
   ("started_at", isoOpt iso j.startedAt),
   ("finished_at", isoOpt iso j.finishedAt),
   ("created_at", isoOpt iso (some j.createdAt)),
   ("modified_at", isoOpt iso (some j.modifiedAt))]

/-- documents/tasks.py, DEFAULT_WEBHOOK_EVENTS. -/
def defaultWebhookEvents : List String := ["job.updated"]

/-- documents/models.py, WebhookEndpoint: the fields the delivery engine
and the enqueue path read and write. -/
structure WebhookEndpoint where
  id : Nat
  tenantId : Nat
  url : String
  secret : String
  enabled : Bool
  events : List String
  lastSuccessAt : Option Nat
  lastFailureAt : Option Nat
  deriving DecidableEq, Repr

/-- documents/models.py, WebhookDelivery: the fields the delivery task
reads and writes. -/
structure WebhookDelivery where
  id : Nat
  uuid : String
  endpointId : Nat
  eventType : String
  payload : List (String × JsonVal)
  status : WebhookDeliveryStatus
  responseCode : Option Nat
  attempt : Nat
  nextRetryAt : Option Nat
  lastError : String
  deliveredAt : Option Nat
  deriving DecidableEq, Repr

/-- documents/tasks.py, queue_job_webhooks: skip when the (status,
stage) pair did not change; otherwise, for every enabled endpoint of the
tenant whose event set (defaulted when empty, since an empty list is
falsy in Python) contains job.updated, create one PENDING delivery
carrying the job payload.  The argument endpoints models the endpoint
table; freshIds supplies the database ids of created rows. -/
def queueJobWebhooks (iso : Nat → String) (j : IngestionJob)
    (prevStatus prevStage : Option String)
    (endpoints : List WebhookEndpoint) (freshIds : Nat → Nat)
    (freshUuid : Nat → String) : List WebhookDelivery :=
  if prevStatus == some (statusValue j.status) &&
      prevStage == some (stageValue j.stage) then
    []
  else
    let tenantEndpoints := endpoints.filter
      (fun e => e.tenantId == j.tenantId && e.enabled)
    let payload := jobWebhookPayload iso j prevStatus prevStage
    let subscribed := tenantEndpoints.filter (fun e =>
      let events := if e.events.isEmpty then defaultWebhookEvents else e.events
      events.contains "job.updated")
    subscribed.enum.map (fun p =>
      { id := freshIds p.1
        uuid := freshUuid p.1
        endpointId := p.2.id
        eventType := "job.updated"
        payload := payload
        status := .PENDING
        responseCode := none
        attempt := 0
        nextRetryAt := none
        lastError := ""
        deliveredAt := none })

/-- documents/views.py, WebhookEndpointViewSet.perform_create: a missing
or empty events list is replaced by job.updated before saving. -/
def performCreateEvents (events : Option (List String)) : List String :=
  match events with
  | none => ["job.updated"]
  | some l => if l.isEmpty then ["job.updated"] else l

/-- Outcome of the urlopen call in deliver_webhook_delivery: either the
server responded with an HTTP status code, or the call raised (the
optional code models getattr on the exception, present for HTTPError). -/
inductive HttpOutcome
  | response (code : Nat)
  | failure (code : Option Nat) (message : String)
  deriving DecidableEq, Repr

/-- True when the outcome is a 200 to 299 response. -/
def HttpOutcome.isSuccess : HttpOutcome → Bool
  | .response code => 200 ≤ code && code < 300
  | .failure _ _ => false

/-- The response code stored by the except handler: the code raised with
the HTTPError for an out-of-range response, the embedded code (if any)
for a transport failure, and nothing for a success. -/
def HttpOutcome.caughtCode : HttpOutcome → Option Nat
  | .response code => some code
  | .failure code _ => code

/-- The str(exc) text stored by the except handler. -/
def HttpOutcome.caughtMessage : HttpOutcome → String
  | .response code =>
      "HTTP Error " ++ toString code ++ ": Unexpected status " ++ toString code
  | .failure _ message => message

/-- The outgoing webhook HTTP request as built by the source: method
POST, the endpoint URL, the encoded body, and the header list. -/
structure WebhookRequest where
  url : String
  body : String
  headers : List (String × String)
  httpMethod : String
  deriving DecidableEq, Repr

/-- Result of one run of deliver_webhook_delivery: the updated delivery
and endpoint rows, the request that went on the wire (none when no
network call was made), the returned boolean, and the countdown of a
rescheduled attempt (none when not rescheduled). -/
structure DeliverResult where
  delivery : WebhookDelivery
  endpoint : WebhookEndpoint
  request : Option WebhookRequest
  retval : Bool
  countdown : Option Nat
  deriving DecidableEq, Repr

/-- documents/tasks.py, deliver_webhook_delivery.  hmacHex is the
hmac.new(key, msg, sha256).hexdigest() library primitive (lowercase hex
by its contract), encode the compact json.dumps call; both are passed as
parameters.  maxAttempts and backoffSeconds are the settings read by
_webhook_max_attempts and _webhook_initial_backoff_seconds; now is the
current instant in microseconds; eager tells whether the Celery request
runs eagerly or directly (suppressing the re-enqueue). -/
def deliverWebhookDelivery (hmacHex : String → String → String)
    (encode : List (String × JsonVal) → String)
    (maxAttempts backoffSeconds : Nat) (dl : WebhookDelivery)
    (ep : WebhookEndpoint) (outcome : HttpOutcome) (now : Nat)
    (eager : Bool) : DeliverResult :=
  if dl.status = .DELIVERED then
    { delivery := dl, endpoint := ep, request := none, retval := true, countdown := none }
  else if dl.status = .FAILED then
    { delivery := dl, endpoint := ep, request := none, retval := false, countdown := none }
  else if ¬ep.enabled then
    { delivery := { dl with status := .FAILED, lastError := "Endpoint disabled" }
      endpoint := ep, request := none, retval := false, countdown := none }
  else
    let body := encode dl.payload
    let baseHeaders := [("Content-Type", "application/json"),
      ("User-Agent", "DocumentRefinery-Webhooks/1.0"),
      ("X-DocRefinery-Event", dl.eventType),
      ("X-DocRefinery-Delivery", dl.uuid)]
    let headers := if ep.secret ≠ "" then
        baseHeaders ++ [("X-DocRefinery-Signature", "sha256=" ++ hmacHex ep.secret body)]
      else baseHeaders
    let req : WebhookRequest :=
      { url := ep.url, body := body, headers := headers, httpMethod := "POST" }
    if outcome.isSuccess then
      match outcome with
      | .response code =>
          { delivery := { dl with
              status := .DELIVERED
              responseCode := some code
              deliveredAt := some now
              nextRetryAt := none }
            endpoint := { ep with lastSuccessAt := some now }
            request := some req, retval := true, countdown := none }
      | .failure _ _ =>
          { delivery := dl, endpoint := ep, request := some req
            retval := false, countdown := none }
    else
      let attempt := dl.attempt + 1
      let dl := { dl with
        attempt := attempt
        responseCode := outcome.caughtCode
        lastError := outcome.caughtMessage }
      let dl := if maxAttempts ≤ attempt then
          { dl with status := .FAILED, nextRetryAt := none }
        else
          { dl with
            status := .RETRYING
            nextRetryAt := some (now + backoffSeconds * 2 ^ (attempt - 1) * 1000000) }
      { delivery := dl
        endpoint := { ep with lastFailureAt := some now }
        request := some req
        retval := false
        countdown := if dl.status = .RETRYING ∧ ¬eager then
            some (backoffSeconds * 2 ^ (attempt - 1))
          else none }

/-- authn/models.py, APIKey: the fields the upload path can read.  The
source model carries no media-type allow-list; its only per-key options
field is docling_options_json. -/
structure APIKey where
  tenantId : Nat
  name : String
  scopes : List String
  active : Bool
  doclingOptionsJson : Option (List (String × String))
  deriving DecidableEq, Repr

/-- documents/views.py, DocumentViewSet.create, line 74: the declared
media type must be application/pdf or application/x-pdf; the check does
not consult the API key. -/
def mediaTypeAccepted (contentType : String) : Bool :=
  contentType == "application/pdf" || contentType == "application/x-pdf"

/-- Modelled from the spec: an API key as the spec describes it in
section 3, carrying an optional allow-list of accepted upload media
types; this field is absent from the source model and exists only to
compare the claimed per-key check with the source check. -/
structure SpecAPIKey where
  tenantId : Nat
  uploadMediaTypes : Option (List String)
  deriving DecidableEq, Repr

/-- Modelled from the spec: admission step 1 as claimed, accepting a
media type exactly when it is in the calling key allow-list, with the
allow-list defaulting to PDF when the key has none. -/
def specMediaTypeAccepted (key : SpecAPIKey) (contentType : String) : Bool :=
  (key.uploadMediaTypes.getD ["application/pdf"]).contains contentType

/-- The uploaded file as the view sees it: declared content type,
advertised size (uploaded.size, 0 modelling a falsy value), and the
streamed chunks of body bytes. -/
structure UploadedFile where
  name : String
  contentType : String
  size : Nat
  chunks : List (List Nat)
  deriving DecidableEq, Repr

/-- Total byte count of the upload body. -/
def UploadedFile.totalBytes (f : UploadedFile) : Nat :=
  (f.chunks.map List.length).sum

/-- The streaming loop of DocumentViewSet.create: fold the chunks while
keeping a running byte counter; raise (None here) as soon as the counter
exceeds the limit, else return the final counter. -/
def streamCount (chunks : List (List Nat)) (maxBytes acc : Nat) : Option Nat :=
  match chunks with
  | [] => some acc
  | c :: rest =>
      let acc := acc + c.length
      if maxBytes < acc then none else streamCount rest maxBytes acc

/-- Outcome of the admission portion of DocumentViewSet.create: HTTP
status and error code of the response, the (tenant, sha256) document
rows after the call, whether the new quarantine file still exists, and
the stored digest and size on success. -/
structure AdmissionResult where
  httpStatus : Nat
  errorCode : Option String
  docs : List (Nat × String)
  fileExists : Bool
  storedSha : Option String
  storedSize : Option Nat
  deriving DecidableEq, Repr

/-- documents/views.py, DocumentViewSet.create, admission path (the
ingest enrollment that can follow a successful admission is modelled
separately and not needed by the claims): media-type check, advertised
size check, streamed write with running counter (unlinking on overrun),
duplicate check by pre-save query, and save with the race-unique
violation modelled by raceConflict (an IntegrityError raised because a
row with the same (tenant, sha256) appeared between query and save).
sha is the hashlib.sha256 hexdigest primitive over the streamed bytes;
docs is the existing (tenant_id, sha256) table. -/
def createDocumentUpload (sha : List Nat → String) (maxBytes : Nat)
    (tenantId : Nat) (f : UploadedFile) (docs : List (Nat × String))
    (raceConflict : Bool) : AdmissionResult :=
  if ¬mediaTypeAccepted f.contentType then
    { httpStatus := 415, errorCode := some "UNSUPPORTED_MEDIA_TYPE"
      docs := docs, fileExists := false, storedSha := none, storedSize := none }
  else if f.size ≠ 0 ∧ maxBytes < f.size then
    { httpStatus := 413, errorCode := some "FILE_TOO_LARGE"
      docs := docs, fileExists := false, storedSha := none, storedSize := none }
  else
    match streamCount f.chunks maxBytes 0 with
    | none =>
        { httpStatus := 413, errorCode := some "FILE_TOO_LARGE"
          docs := docs, fileExists := false, storedSha := none, storedSize := none }
    | some total =>
        let digest := sha f.chunks.flatten
        if docs.contains (tenantId, digest) then
          { httpStatus := 409, errorCode := some "DUPLICATE_DOCUMENT"
            docs := docs, fileExists := false, storedSha := none, storedSize := none }
        else if raceConflict then
          { httpStatus := 409, errorCode := some "DUPLICATE_DOCUMENT"
            docs := docs, fileExists := false, storedSha := none, storedSize := none }
        else
          { httpStatus := 201, errorCode := none
            docs := docs ++ [(tenantId, digest)], fileExists := true
            storedSha := some digest, storedSize := some total }

/-! Concrete fixtures used by counterexamples and witnesses. -/

/-- A freshly enrolled job as DocumentViewSet.create builds it. -/
def sampleJob : IngestionJob :=
  { id := 1, uuid := "j-uuid-1", tenantId := 7, documentId := 3
    externalUuid := none, profile := none
    status := .QUEUED, stage := .SCANNING
    queuedAt := some 0, startedAt := none, finishedAt := none
    durationMs := none, scanMs := none
    errorCode := "", errorMessage := "", errorDetails := none
    celeryTaskId := "", createdAt := 0, modifiedAt := 0 }

/-- A freshly uploaded document row. -/
def sampleDoc : Document :=
  { status := .UPLOADED
    storageRelpathQuarantine := "uploads/quarantine/7/doc.pdf"
    storageRelpathClean := none }

/-- A RUNNING job that started at instant 0. -/
def c2RunningJob : IngestionJob :=
  { sampleJob with status := .RUNNING, startedAt := some 0 }

/-- A job already CANCELED through the API. -/
def c7CanceledJob : IngestionJob :=
  { sampleJob with status := .CANCELED, finishedAt := some 2000 }

/-- A RUNNING job carrying a profile, as in the repository webhook-queue
test. -/
def c9Job : IngestionJob :=
  { sampleJob with
    profile := some "fast_text", status := .RUNNING, stage := .CONVERTING
    externalUuid := some "ext-uuid-1" }

/-- An enabled endpoint with a secret, subscribed to job.updated. -/
def sampleEndpoint : WebhookEndpoint :=
  { id := 1, tenantId := 7, url := "https://example.com/webhook"
    secret := "s", enabled := true, events := ["job.updated"]
    lastSuccessAt := none, lastFailureAt := none }

/-- An enabled endpoint whose stored event list is empty. -/
def c10Endpoint : WebhookEndpoint :=
  { sampleEndpoint with id := 2, events := [] }

/-- A pending delivery with an empty payload blob. -/
def sampleDelivery : WebhookDelivery :=
  { id := 1, uuid := "d-uuid-1", endpointId := 1, eventType := "job.updated"
    payload := [], status := .PENDING, responseCode := none, attempt := 0
    nextRetryAt := none, lastError := "", deliveredAt := none }

/-- A delivery already in the terminal DELIVERED state. -/
def c4DeliveredDelivery : WebhookDelivery :=
  { sampleDelivery with status := .DELIVERED, responseCode := some 200 }

/-- A concrete stand-in for the HMAC primitive, used only to instantiate
universally quantified theorems. -/
def sampleHmac : String → String → String :=
  fun key msg => key ++ "." ++ msg

/-- A concrete stand-in for the compact JSON encoder. -/
def sampleEncode : List (String × JsonVal) → String :=
  fun fields => toString fields.length

/-- A concrete stand-in for the sha256 hexdigest primitive. -/
def sampleSha : List Nat → String :=
  fun bytes => "sha-" ++ toString bytes.length

/-- A spec-modelled key whose claimed allow-list holds only image/png. -/
def c8SpecKeyPng : SpecAPIKey :=
  { tenantId := 7, uploadMediaTypes := some ["image/png"] }

/-- A spec-modelled key with no allow-list (the claimed default case). -/
def c8SpecKeyDefault : SpecAPIKey :=
  { tenantId := 7, uploadMediaTypes := none }

/-- An upload declared as image/png. -/
def c8PngUpload : UploadedFile :=
  { name := "a.png", contentType := "image/png", size := 1, chunks := [[0]] }

/-- An upload declared as application/x-pdf. -/
def c8XPdfUpload : UploadedFile :=
  { name := "a.pdf", contentType := "application/x-pdf", size := 1, chunks := [[0]] }

/-- A four-byte PDF upload split in two chunks. -/
def c5ExactUpload : UploadedFile :=
  { name := "a.pdf", contentType := "application/pdf", size := 4
    chunks := [[1, 2], [3, 4]] }

/-- A five-byte PDF upload whose advertised size lies (0, a falsy
value), so only the running stream counter can catch the overrun. -/
def c5OverUpload : UploadedFile :=
  { name := "a.pdf", contentType := "application/pdf", size := 0
    chunks := [[1, 2], [3, 4, 5]] }

/-! Theorems settling the claims, preceded by small helper lemmas about
recompute_durations (it writes only duration_ms). -/

theorem recomputeDurations_status (j : IngestionJob) :
    (recomputeDurations j).status = j.status := by
  unfold recomputeDurations; split <;> rfl

theorem recomputeDurations_stage (j : IngestionJob) :
    (recomputeDurations j).stage = j.stage := by
  unfold recomputeDurations; split <;> rfl

theorem recomputeDurations_errorCode (j : IngestionJob) :
    (recomputeDurations j).errorCode = j.errorCode := by
  unfold recomputeDurations; split <;> rfl

theorem recomputeDurations_errorMessage (j : IngestionJob) :
    (recomputeDurations j).errorMessage = j.errorMessage := by
  unfold recomputeDurations; split <;> rfl

theorem recomputeDurations_finishedAt (j : IngestionJob) :
    (recomputeDurations j).finishedAt = j.finishedAt := by
  unfold recomputeDurations; split <;> rfl

theorem recomputeDurations_durationMs (j : IngestionJob) :
    (recomputeDurations j).durationMs =
      match j.startedAt, j.finishedAt with
      | some s, some f => some ((f - s) / 1000)
      | _, _ => j.durationMs := by
  unfold recomputeDurations
  rcases j.startedAt <;> rcases j.finishedAt <;> rfl

theorem streamCount_of_le (chunks : List (List Nat)) (maxBytes : Nat) :
    ∀ acc : Nat, acc + (chunks.map List.length).sum ≤ maxBytes →
      streamCount chunks maxBytes acc =
        some (acc + (chunks.map List.length).sum) := by
  induction chunks with
  | nil => intro acc _; simp [streamCount]
  | cons c rest ih =>
      intro acc h
      simp only [List.map_cons, List.sum_cons] at h
      simp only [streamCount]
      rw [if_neg (by omega), ih (acc + c.length) (by omega)]
      simp only [List.map_cons, List.sum_cons]
      congr 1
      omega

theorem streamCount_of_gt (chunks : List (List Nat)) (maxBytes : Nat) :
    ∀ acc : Nat, acc ≤ maxBytes →
      maxBytes < acc + (chunks.map List.length).sum →
      streamCount chunks maxBytes acc = none := by
  induction chunks with
  | nil => intro acc hacc h; simp at h; omega
  | cons c rest ih =>
      intro acc hacc h
      simp only [List.map_cons, List.sum_cons] at h
      simp only [streamCount]
      by_cases hc : maxBytes < acc + c.length
      · rw [if_pos hc]
      · rw [if_neg hc]
        exact ih (acc + c.length) (by omega) (by omega)

/-- C1: the claim says a scan-results mapping lacking the scanned path
is marked FAILED with CLAMAV_INVALID_RESPONSE.  On the source a missing
entry defaults to the pair (ERROR, No scan result) and takes the ERROR
branch, so the job is marked FAILED with error code VIRUS_SCAN_ERROR,
not CLAMAV_INVALID_RESPONSE: the empty mapping refutes the claim. -/
theorem C1_missing_entry_counterexample :
    (scanPdfTask sampleJob sampleDoc 1000 none (.mapping []) 5 "c.pdf").job.status = .FAILED ∧
    (scanPdfTask sampleJob sampleDoc 1000 none (.mapping []) 5 "c.pdf").job.errorCode = "VIRUS_SCAN_ERROR" ∧
    (scanPdfTask sampleJob sampleDoc 1000 none (.mapping []) 5 "c.pdf").job.errorCode ≠ "CLAMAV_INVALID_RESPONSE" := by
  decide

/-- C1 (amended): when the scan call returns a mapping with no entry for
the scanned path, the job is marked FAILED with error code
VIRUS_SCAN_ERROR and message No scan result (the missing entry defaults
into the ERROR branch); only a non-mapping response is marked FAILED
with CLAMAV_INVALID_RESPONSE. -/
theorem C1_missing_entry_amended (j : IngestionJob) (d : Document) (now : Nat)
    (taskId : Option String) (results : List (String × String × String))
    (elapsedMs : Nat) (cleanRel : String)
    (hc : isCanceled j = false)
    (hm : results.find? (fun p => p.1 == d.storageRelpathQuarantine) = none) :
    ((scanPdfTask j d now taskId (.mapping results) elapsedMs cleanRel).job.status = .FAILED ∧
     (scanPdfTask j d now taskId (.mapping results) elapsedMs cleanRel).job.errorCode = "VIRUS_SCAN_ERROR" ∧
     (scanPdfTask j d now taskId (.mapping results) elapsedMs cleanRel).job.errorMessage = "No scan result") ∧
    ((scanPdfTask j d now taskId .nonMapping elapsedMs cleanRel).job.status = .FAILED ∧
     (scanPdfTask j d now taskId .nonMapping elapsedMs cleanRel).job.errorCode = "CLAMAV_INVALID_RESPONSE") := by
  simp [scanPdfTask, hc, dictGetD, hm, markFailed,
    recomputeDurations_status, recomputeDurations_errorCode,
    recomputeDurations_errorMessage]

/-- C1 witness: the amended statement at a concrete job and a mapping
that only carries some other path. -/
theorem C1_missing_entry_witness :
    ((scanPdfTask sampleJob sampleDoc 1000 none
        (.mapping [("other.pdf", ("OK", ""))]) 5 "c.pdf").job.status = .FAILED ∧
     (scanPdfTask sampleJob sampleDoc 1000 none
        (.mapping [("other.pdf", ("OK", ""))]) 5 "c.pdf").job.errorCode = "VIRUS_SCAN_ERROR" ∧
     (scanPdfTask sampleJob sampleDoc 1000 none
        (.mapping [("other.pdf", ("OK", ""))]) 5 "c.pdf").job.errorMessage = "No scan result") ∧
    ((scanPdfTask sampleJob sampleDoc 1000 none .nonMapping 5 "c.pdf").job.status = .FAILED ∧
     (scanPdfTask sampleJob sampleDoc 1000 none .nonMapping 5 "c.pdf").job.errorCode = "CLAMAV_INVALID_RESPONSE") :=
  C1_missing_entry_amended sampleJob sampleDoc 1000 none
    [("other.pdf", ("OK", ""))] 5 "c.pdf" (by decide) (by decide)

/-- C2: the claim says every terminal job satisfies duration_ms =
round((finished_at - started_at) * 1000), including a cancellation of a
still QUEUED job.  Two concrete refutations on the source: (a) a RUNNING
job started at instant 0 and canceled 1500 microseconds later stores
duration_ms = 1, while the rounded value of 1.5 ms is 2 (the source
truncates with int(), it does not round); (b) canceling a QUEUED job
leaves started_at unset, so recompute_durations stores nothing and
duration_ms stays NULL even though the job is terminal. -/
theorem C2_terminal_durations_counterexample :
    ((cancelJob c2RunningJob 1500).job.status.isTerminal = true ∧
     (cancelJob c2RunningJob 1500).job.durationMs = some 1 ∧
     round ((1500 : ℚ) / 1000000 * 1000) = 2 ∧ (1 : ℤ) ≠ 2) ∧
    ((cancelJob sampleJob 1500).job.status.isTerminal = true ∧
     (cancelJob sampleJob 1500).job.finishedAt = some 1500 ∧
     (cancelJob sampleJob 1500).job.durationMs = none) := by
  refine ⟨⟨by decide, by decide, ?_, by decide⟩, by decide⟩
  norm_num [round_eq]

/-- C2 (amended): every path that makes a job terminal (failure marking,
the quarantine branch of the scan stage, finalization, cancellation)
sets finished_at to the current instant, and when started_at is set it
stores duration_ms as the truncation of (finished_at - started_at) in
milliseconds; a job made terminal with started_at still unset (a
cancellation of a QUEUED job that never started) keeps its previous
duration_ms, which is unset. -/
theorem C2_terminal_durations_amended :
    (∀ (j : IngestionJob) (code message : String)
       (details : Option (List (String × String))) (now : Nat),
      (markFailed j code message details now).status.isTerminal = true ∧
      (markFailed j code message details now).finishedAt = some now ∧
      (markFailed j code message details now).durationMs =
        (match j.startedAt with
         | some s => some ((now - s) / 1000)
         | none => j.durationMs)) ∧
    (∀ (j : IngestionJob) (now : Nat), j.status = .QUEUED ∨ j.status = .RUNNING →
      (cancelJob j now).job.status = .CANCELED ∧
      (cancelJob j now).job.finishedAt = some now ∧
      (cancelJob j now).job.durationMs =
        (match j.startedAt with
         | some s => some ((now - s) / 1000)
         | none => j.durationMs)) ∧
    (∀ (j : IngestionJob) (now : Nat) (taskId : Option String),
      isCanceled j = false →
      (finalizeJobTask j now taskId).status = .SUCCEEDED ∧
      (finalizeJobTask j now taskId).finishedAt = some now ∧
      (finalizeJobTask j now taskId).durationMs =
        (match j.startedAt with
         | some s => some ((now - s) / 1000)
         | none => j.durationMs)) ∧
    (∀ (j : IngestionJob) (d : Document) (now : Nat) (taskId : Option String)
       (results : List (String × String × String)) (elapsedMs : Nat)
       (cleanRel : String),
      isCanceled j = false →
      (dictGetD results d.storageRelpathQuarantine ("ERROR", "No scan result")).1 = "FOUND" →
      (scanPdfTask j d now taskId (.mapping results) elapsedMs cleanRel).job.status = .QUARANTINED ∧
      (scanPdfTask j d now taskId (.mapping results) elapsedMs cleanRel).job.finishedAt = some now ∧
      (scanPdfTask j d now taskId (.mapping results) elapsedMs cleanRel).job.durationMs =
        some ((now - j.startedAt.getD now) / 1000)) := by
  refine ⟨?_, ?_, ?_, ?_⟩
  · intro j code message details now
    refine ⟨by simp [markFailed, recomputeDurations_status, IngestionJobStatus.isTerminal], ?_, ?_⟩
    · simp [markFailed, recomputeDurations_finishedAt]
    · simp only [markFailed, recomputeDurations_durationMs]
      rcases h : j.startedAt <;> simp [h]
  · intro j now h
    have hne : ¬(j.status ≠ IngestionJobStatus.QUEUED ∧ j.status ≠ IngestionJobStatus.RUNNING) := by
      rcases h with h | h <;> simp [h]
    refine ⟨?_, ?_, ?_⟩
    · simp [cancelJob, hne, recomputeDurations_status]
    · simp [cancelJob, hne, recomputeDurations_finishedAt]
    · simp only [cancelJob, hne, if_false, recomputeDurations_durationMs]
      rcases hs : j.startedAt <;> simp [hs]
  · intro j now taskId hc
    refine ⟨?_, ?_, ?_⟩
    · simp [finalizeJobTask, hc, recomputeDurations_status]
    · simp [finalizeJobTask, hc, recomputeDurations_finishedAt]
    · simp only [finalizeJobTask, hc, Bool.false_eq_true, if_false,
        recomputeDurations_durationMs]
      rcases hs : j.startedAt <;> simp [hs]
  · intro j d now taskId results elapsedMs cleanRel hc hf
    refine ⟨?_, ?_, ?_⟩
    · simp [scanPdfTask, hc, hf, recomputeDurations_status]
    · simp [scanPdfTask, hc, hf, recomputeDurations_finishedAt]
    · simp only [scanPdfTask, hc, Bool.false_eq_true, if_false, hf,
        beq_self_eq_true, if_true, recomputeDurations_durationMs]
      rcases hs : j.startedAt <;> simp [hs]

/-- C2 witness: the four amended conjuncts at concrete inputs: a failure
marking and a finalization of the started RUNNING job, a cancellation of
the never-started QUEUED job, and the quarantine branch at a mapping
whose entry is FOUND. -/
theorem C2_terminal_durations_witness :
    ((markFailed c2RunningJob "X" "m" none 2500).status.isTerminal = true ∧
     (markFailed c2RunningJob "X" "m" none 2500).finishedAt = some 2500 ∧
     (markFailed c2RunningJob "X" "m" none 2500).durationMs =
       (match c2RunningJob.startedAt with
        | some s => some ((2500 - s) / 1000)
        | none => c2RunningJob.durationMs)) ∧
    ((cancelJob sampleJob 2500).job.status = .CANCELED ∧
     (cancelJob sampleJob 2500).job.finishedAt = some 2500 ∧
     (cancelJob sampleJob 2500).job.durationMs =
       (match sampleJob.startedAt with
        | some s => some ((2500 - s) / 1000)
        | none => sampleJob.durationMs)) ∧
    ((finalizeJobTask c2RunningJob 2500 none).status = .SUCCEEDED ∧
     (finalizeJobTask c2RunningJob 2500 none).finishedAt = some 2500 ∧
     (finalizeJobTask c2RunningJob 2500 none).durationMs =
       (match c2RunningJob.startedAt with
        | some s => some ((2500 - s) / 1000)
        | none => c2RunningJob.durationMs)) ∧
    ((scanPdfTask sampleJob sampleDoc 2500 none
        (.mapping [("uploads/quarantine/7/doc.pdf", ("FOUND", "Eicar"))]) 5 "c.pdf").job.status = .QUARANTINED ∧
     (scanPdfTask sampleJob sampleDoc 2500 none
        (.mapping [("uploads/quarantine/7/doc.pdf", ("FOUND", "Eicar"))]) 5 "c.pdf").job.finishedAt = some 2500 ∧
     (scanPdfTask sampleJob sampleDoc 2500 none
        (.mapping [("uploads/quarantine/7/doc.pdf", ("FOUND", "Eicar"))]) 5 "c.pdf").job.durationMs =
       some ((2500 - sampleJob.startedAt.getD 2500) / 1000)) :=
  ⟨C2_terminal_durations_amended.1 c2RunningJob "X" "m" none 2500,
   C2_terminal_durations_amended.2.1 sampleJob 2500 (Or.inl rfl),
   C2_terminal_durations_amended.2.2.1 c2RunningJob 2500 none (by decide),
   C2_terminal_durations_amended.2.2.2 sampleJob sampleDoc 2500 none
     [("uploads/quarantine/7/doc.pdf", ("FOUND", "Eicar"))] 5 "c.pdf"
     (by decide) (by decide)⟩

/-- C7: when the reloaded job is already CANCELED at adapter entry,
every stage adapter — scan, convert, export, and in particular finalize
— returns without touching the job or the document and without raising,
so a job canceled between stages stays CANCELED and never becomes
SUCCEEDED. -/
theorem C7_canceled_noop (j : IngestionJob) (d : Document) (now : Nat)
    (taskId : Option String) (call : ScanCall) (elapsedMs : Nat)
    (cleanRel : String) (convertOutcome exportOutcome : Except String Unit)
    (h : j.status = .CANCELED) :
    scanPdfTask j d now taskId call elapsedMs cleanRel =
      { job := j, document := d, raised := false } ∧
    doclingConvertTask j d now taskId convertOutcome =
      { job := j, document := d, raised := false } ∧
    exportArtifactsTask j d now taskId exportOutcome =
      { job := j, document := d, raised := false } ∧
    finalizeJobTask j now taskId = j ∧
    (finalizeJobTask j now taskId).status ≠ .SUCCEEDED := by
  have hc : isCanceled j = true := by simp [isCanceled, h]
  refine ⟨?_, ?_, ?_, ?_, ?_⟩
  · simp [scanPdfTask, hc]
  · simp [doclingConvertTask, hc]
  · simp [exportArtifactsTask, hc]
  · simp [finalizeJobTask, hc]
  · simp [finalizeJobTask, hc, h]

/-- C7 witness: the no-op behavior at a concrete CANCELED job, with a
clean scanner mapping and successful convert and export outcomes that
would otherwise drive the job to SUCCEEDED. -/
theorem C7_canceled_noop_witness :
    scanPdfTask c7CanceledJob sampleDoc 3000 none
      (.mapping [("uploads/quarantine/7/doc.pdf", ("OK", ""))]) 5 "c.pdf" =
      { job := c7CanceledJob, document := sampleDoc, raised := false } ∧
    doclingConvertTask c7CanceledJob sampleDoc 3000 none (.ok ()) =
      { job := c7CanceledJob, document := sampleDoc, raised := false } ∧
    exportArtifactsTask c7CanceledJob sampleDoc 3000 none (.ok ()) =
      { job := c7CanceledJob, document := sampleDoc, raised := false } ∧
    finalizeJobTask c7CanceledJob 3000 none = c7CanceledJob ∧
    (finalizeJobTask c7CanceledJob 3000 none).status ≠ .SUCCEEDED :=
  C7_canceled_noop c7CanceledJob sampleDoc 3000 none
    (.mapping [("uploads/quarantine/7/doc.pdf", ("OK", ""))]) 5 "c.pdf"
    (.ok ()) (.ok ()) (by decide)

/-- C9: the claim (with the spec and the repository test
test_webhook_queue.py) says the job.updated payload carries a profile
field.  The payload built by _job_webhook_payload has exactly the other
seventeen fields and no profile key, even for a job whose profile is
set: evaluated at a RUNNING job with profile fast_text (the situation
the repository test asserts on), the lookup of profile yields nothing. -/
theorem C9_payload_missing_profile :
    ((jobWebhookPayload (fun _ => "t") c9Job (some "QUEUED") (some "SCANNING")).map Prod.fst =
      ["event", "job_id", "job_uuid", "document_id", "external_uuid",
       "status", "stage", "previous_status", "previous_stage",
       "error_code", "error_message", "error_details",
       "queued_at", "started_at", "finished_at", "created_at", "modified_at"]) ∧
    (jobWebhookPayload (fun _ => "t") c9Job (some "QUEUED") (some "SCANNING")).lookup "profile" = none ∧
    c9Job.profile = some "fast_text" := by
  refine ⟨rfl, ?_, rfl⟩
  decide

/-- C10: an endpoint created without events stores the job.updated
default (both a missing and an empty submitted list), and at enqueue
time an enabled same-tenant endpoint whose stored event list is empty is
still treated as subscribed to job.updated: for any state change it
receives exactly one PENDING delivery carrying the job payload. -/
theorem C10_default_events (iso : Nat → String) (j : IngestionJob)
    (e : WebhookEndpoint) (freshIds : Nat → Nat) (freshUuid : Nat → String)
    (prevStatus prevStage : Option String)
    (ht : e.tenantId = j.tenantId) (he : e.enabled = true)
    (hev : e.events = [])
    (hchange : (prevStatus == some (statusValue j.status) &&
      prevStage == some (stageValue j.stage)) = false) :
    performCreateEvents none = ["job.updated"] ∧
    performCreateEvents (some []) = ["job.updated"] ∧
    queueJobWebhooks iso j prevStatus prevStage [e] freshIds freshUuid =
      [{ id := freshIds 0, uuid := freshUuid 0, endpointId := e.id
         eventType := "job.updated"
         payload := jobWebhookPayload iso j prevStatus prevStage
         status := .PENDING, responseCode := none, attempt := 0
         nextRetryAt := none, lastError := "", deliveredAt := none }] := by
  refine ⟨rfl, rfl, ?_⟩
  simp [queueJobWebhooks, hchange, ht, he, hev, defaultWebhookEvents,
    List.enum]

/-- C10 witness: the enqueue conclusion at a concrete QUEUED job and the
concrete empty-events endpoint, for the RUNNING-to-QUEUED state change. -/
theorem C10_default_events_witness :
    performCreateEvents none = ["job.updated"] ∧
    performCreateEvents (some []) = ["job.updated"] ∧
    queueJobWebhooks (fun _ => "t") sampleJob (some "RUNNING") (some "SCANNING")
        [c10Endpoint] (fun _ => 11) (fun _ => "w") =
      [{ id := 11, uuid := "w", endpointId := c10Endpoint.id
         eventType := "job.updated"
         payload := jobWebhookPayload (fun _ => "t") sampleJob
           (some "RUNNING") (some "SCANNING")
         status := .PENDING, responseCode := none, attempt := 0
         nextRetryAt := none, lastError := "", deliveredAt := none }] :=
  C10_default_events (fun _ => "t") sampleJob c10Endpoint (fun _ => 11)
    (fun _ => "w") (some "RUNNING") (some "SCANNING")
    (by decide) (by decide) (by decide) (by decide)

/-- C3: whenever the delivery task reaches the network call (the
delivery is not terminal and the endpoint is enabled), the outgoing
request body is the compact JSON encoding of the payload, and the
X-DocRefinery-Signature header is present with value sha256= followed by
the keyed hash of exactly those body bytes under the stored endpoint
secret precisely when the secret is non-empty; with an empty secret the
header is absent. -/
theorem C3_signature_header (hmacHex : String → String → String)
    (encode : List (String × JsonVal) → String)
    (maxAttempts backoffSeconds : Nat) (dl : WebhookDelivery)
    (ep : WebhookEndpoint) (outcome : HttpOutcome) (now : Nat) (eager : Bool)
    (h1 : dl.status ≠ .DELIVERED) (h2 : dl.status ≠ .FAILED)
    (h3 : ep.enabled = true) :
    ∃ req : WebhookRequest,
      (deliverWebhookDelivery hmacHex encode maxAttempts backoffSeconds
        dl ep outcome now eager).request = some req ∧
      req.body = encode dl.payload ∧
      (ep.secret ≠ "" →
        req.headers.lookup "X-DocRefinery-Signature" =
          some ("sha256=" ++ hmacHex ep.secret (encode dl.payload))) ∧
      (ep.secret = "" →
        req.headers.lookup "X-DocRefinery-Signature" = none) := by
  refine ⟨{ url := ep.url, body := encode dl.payload
            headers := if ep.secret ≠ "" then
                [("Content-Type", "application/json"),
                 ("User-Agent", "DocumentRefinery-Webhooks/1.0"),
                 ("X-DocRefinery-Event", dl.eventType),
                 ("X-DocRefinery-Delivery", dl.uuid)] ++
                [("X-DocRefinery-Signature",
                  "sha256=" ++ hmacHex ep.secret (encode dl.payload))]
              else
                [("Content-Type", "application/json"),
                 ("User-Agent", "DocumentRefinery-Webhooks/1.0"),
                 ("X-DocRefinery-Event", dl.eventType),
                 ("X-DocRefinery-Delivery", dl.uuid)]
            httpMethod := "POST" }, ?_, rfl, ?_, ?_⟩
  · unfold deliverWebhookDelivery
    rw [if_neg h1, if_neg h2, if_neg (by simp [h3])]
    dsimp only
    split
    · split <;> rfl
    · rfl
  · intro hsec
    rw [if_pos hsec]
    simp [List.lookup]
  · intro hsec
    rw [if_neg (by simp [hsec])]
    simp [List.lookup]

/-- C3 witness: the signature conclusion at the concrete secret-bearing
endpoint and pending delivery, with a 200 response outcome. -/
theorem C3_signature_header_witness :
    ∃ req : WebhookRequest,
      (deliverWebhookDelivery sampleHmac sampleEncode 5 30
        sampleDelivery sampleEndpoint (.response 200) 0 true).request = some req ∧
      req.body = sampleEncode sampleDelivery.payload ∧
      (sampleEndpoint.secret ≠ "" →
        req.headers.lookup "X-DocRefinery-Signature" =
          some ("sha256=" ++ sampleHmac sampleEndpoint.secret
            (sampleEncode sampleDelivery.payload))) ∧
      (sampleEndpoint.secret = "" →
        req.headers.lookup "X-DocRefinery-Signature" = none) :=
  C3_signature_header sampleHmac sampleEncode 5 30 sampleDelivery
    sampleEndpoint (.response 200) 0 true (by decide) (by decide) (by decide)

/-- C4: for a delivery attempt made against an enabled endpoint whose
network outcome is not a 200 to 299 response, the attempt counter is
incremented and the error text and response code (when the outcome
carries one) are stored; while the new counter is below max_attempts the
delivery becomes RETRYING with the next retry at now plus
initial_backoff times 2 to the power (attempt - 1) seconds (the instant
is stored in microseconds); once the counter reaches max_attempts it
becomes terminal FAILED; and a delivery already DELIVERED or FAILED is
returned untouched with no request made at all. -/
theorem C4_retry_policy :
    (∀ (hmacHex : String → String → String)
       (encode : List (String × JsonVal) → String)
       (maxAttempts backoffSeconds : Nat) (dl : WebhookDelivery)
       (ep : WebhookEndpoint) (outcome : HttpOutcome) (now : Nat) (eager : Bool),
      (dl.status = .PENDING ∨ dl.status = .RETRYING) → ep.enabled = true →
      outcome.isSuccess = false →
      (deliverWebhookDelivery hmacHex encode maxAttempts backoffSeconds
          dl ep outcome now eager).delivery.attempt = dl.attempt + 1 ∧
      (deliverWebhookDelivery hmacHex encode maxAttempts backoffSeconds
          dl ep outcome now eager).delivery.lastError = outcome.caughtMessage ∧
      (deliverWebhookDelivery hmacHex encode maxAttempts backoffSeconds
          dl ep outcome now eager).delivery.responseCode = outcome.caughtCode ∧
      (dl.attempt + 1 < maxAttempts →
        (deliverWebhookDelivery hmacHex encode maxAttempts backoffSeconds
            dl ep outcome now eager).delivery.status = .RETRYING ∧
        (deliverWebhookDelivery hmacHex encode maxAttempts backoffSeconds
            dl ep outcome now eager).delivery.nextRetryAt =
          some (now + backoffSeconds * 2 ^ dl.attempt * 1000000)) ∧
      (maxAttempts ≤ dl.attempt + 1 →
        (deliverWebhookDelivery hmacHex encode maxAttempts backoffSeconds
            dl ep outcome now eager).delivery.status = .FAILED ∧
        (deliverWebhookDelivery hmacHex encode maxAttempts backoffSeconds
            dl ep outcome now eager).delivery.nextRetryAt = none)) ∧
    (∀ (hmacHex : String → String → String)
       (encode : List (String × JsonVal) → String)
       (maxAttempts backoffSeconds : Nat) (dl : WebhookDelivery)
       (ep : WebhookEndpoint) (outcome : HttpOutcome) (now : Nat) (eager : Bool),
      (dl.status = .DELIVERED ∨ dl.status = .FAILED) →
      (deliverWebhookDelivery hmacHex encode maxAttempts backoffSeconds
          dl ep outcome now eager).delivery = dl ∧
      (deliverWebhookDelivery hmacHex encode maxAttempts backoffSeconds
          dl ep outcome now eager).request = none) := by
  constructor
  · intro hmacHex encode maxAttempts backoffSeconds dl ep outcome now eager
    intro hst he hfail
    have h1 : dl.status ≠ WebhookDeliveryStatus.DELIVERED := by
      rcases hst with h | h <;> simp [h]
    have h2 : dl.status ≠ WebhookDeliveryStatus.FAILED := by
      rcases hst with h | h <;> simp [h]
    unfold deliverWebhookDelivery
    rw [if_neg h1, if_neg h2, if_neg (by simp [he])]
    dsimp only
    rw [if_neg (by simp [hfail])]
    by_cases hmax : maxAttempts ≤ dl.attempt + 1
    · rw [if_pos hmax]
      refine ⟨rfl, rfl, rfl, ?_, fun _ => ⟨rfl, rfl⟩⟩
      intro hlt
      exact absurd hmax (by omega)
    · rw [if_neg hmax]
      refine ⟨rfl, rfl, rfl, fun _ => ⟨rfl, by simp⟩, ?_⟩
      intro hge
      exact absurd hge hmax
  · intro hmacHex encode maxAttempts backoffSeconds dl ep outcome now eager hterm
    unfold deliverWebhookDelivery
    rcases hterm with h | h <;> simp [h]

/-- C4 witness: both conjuncts at concrete inputs: a pending delivery
against the enabled endpoint receiving a 500 response (attempt becomes
1, RETRYING, next retry 30 seconds later), and a DELIVERED delivery that
is returned untouched with no request. -/
theorem C4_retry_policy_witness :
    ((deliverWebhookDelivery sampleHmac sampleEncode 5 30
        sampleDelivery sampleEndpoint (.response 500) 0 true).delivery.attempt =
      sampleDelivery.attempt + 1 ∧
     (deliverWebhookDelivery sampleHmac sampleEncode 5 30
        sampleDelivery sampleEndpoint (.response 500) 0 true).delivery.lastError =
      (HttpOutcome.response 500).caughtMessage ∧
     (deliverWebhookDelivery sampleHmac sampleEncode 5 30
        sampleDelivery sampleEndpoint (.response 500) 0 true).delivery.responseCode =
      (HttpOutcome.response 500).caughtCode ∧
     (sampleDelivery.attempt + 1 < 5 →
       (deliverWebhookDelivery sampleHmac sampleEncode 5 30
          sampleDelivery sampleEndpoint (.response 500) 0 true).delivery.status = .RETRYING ∧
       (deliverWebhookDelivery sampleHmac sampleEncode 5 30
          sampleDelivery sampleEndpoint (.response 500) 0 true).delivery.nextRetryAt =
        some (0 + 30 * 2 ^ sampleDelivery.attempt * 1000000)) ∧
     (5 ≤ sampleDelivery.attempt + 1 →
       (deliverWebhookDelivery sampleHmac sampleEncode 5 30
          sampleDelivery sampleEndpoint (.response 500) 0 true).delivery.status = .FAILED ∧
       (deliverWebhookDelivery sampleHmac sampleEncode 5 30
          sampleDelivery sampleEndpoint (.response 500) 0 true).delivery.nextRetryAt = none)) ∧
    ((deliverWebhookDelivery sampleHmac sampleEncode 5 30
        c4DeliveredDelivery sampleEndpoint (.response 500) 0 true).delivery =
      c4DeliveredDelivery ∧
     (deliverWebhookDelivery sampleHmac sampleEncode 5 30
        c4DeliveredDelivery sampleEndpoint (.response 500) 0 true).request = none) :=
  ⟨C4_retry_policy.1 sampleHmac sampleEncode 5 30 sampleDelivery
     sampleEndpoint (.response 500) 0 true (Or.inl rfl) rfl rfl,
   C4_retry_policy.2 sampleHmac sampleEncode 5 30 c4DeliveredDelivery
     sampleEndpoint (.response 500) 0 true (Or.inl rfl)⟩

/-- C5: an upload body of exactly the configured limit passes both size
checks and (absent a duplicate) is admitted with its size stored, while
a body of limit plus one bytes is rejected 413 FILE_TOO_LARGE with the
quarantine file gone — and the second half holds for every advertised
size, including a lying advertised size of 0, because the running byte
counter of the streaming loop enforces the limit by itself. -/
theorem C5_size_limit (sha : List Nat → String) (maxBytes tenantId : Nat)
    (f : UploadedFile) (docs : List (Nat × String)) (raceConflict : Bool)
    (hct : f.contentType = "application/pdf") :
    (f.totalBytes = maxBytes → f.size = maxBytes →
      docs.contains (tenantId, sha f.chunks.flatten) = false →
      raceConflict = false →
      (createDocumentUpload sha maxBytes tenantId f docs raceConflict).httpStatus = 201 ∧
      (createDocumentUpload sha maxBytes tenantId f docs raceConflict).fileExists = true ∧
      (createDocumentUpload sha maxBytes tenantId f docs raceConflict).storedSize = some maxBytes) ∧
    (f.totalBytes = maxBytes + 1 →
      (createDocumentUpload sha maxBytes tenantId f docs raceConflict).httpStatus = 413 ∧
      (createDocumentUpload sha maxBytes tenantId f docs raceConflict).errorCode =
        some "FILE_TOO_LARGE" ∧
      (createDocumentUpload sha maxBytes tenantId f docs raceConflict).fileExists = false) := by
  have hmt : mediaTypeAccepted f.contentType = true := by
    simp [mediaTypeAccepted, hct]
  constructor
  · intro htotal hsize hdup hrace
    have hstream : streamCount f.chunks maxBytes 0 =
        some (0 + (f.chunks.map List.length).sum) :=
      streamCount_of_le f.chunks maxBytes 0
        (by unfold UploadedFile.totalBytes at htotal; omega)
    unfold createDocumentUpload
    rw [if_neg (by simp [hmt]), if_neg (by rw [hsize]; omega), hstream]
    have htot : 0 + (f.chunks.map List.length).sum = maxBytes := by
      unfold UploadedFile.totalBytes at htotal; omega
    dsimp only
    rw [if_neg (by rw [hdup]; exact Bool.false_ne_true),
      if_neg (by rw [hrace]; exact Bool.false_ne_true), htot]
    exact ⟨rfl, rfl, rfl⟩
  · intro htotal
    unfold createDocumentUpload
    rw [if_neg (by simp [hmt])]
    by_cases hadv : f.size ≠ 0 ∧ maxBytes < f.size
    · rw [if_pos hadv]
      exact ⟨rfl, rfl, rfl⟩
    · have hstream : streamCount f.chunks maxBytes 0 = none :=
        streamCount_of_gt f.chunks maxBytes 0 (Nat.zero_le _)
          (by unfold UploadedFile.totalBytes at htotal; omega)
      rw [if_neg hadv, hstream]
      exact ⟨rfl, rfl, rfl⟩

/-- C5 witness: both halves at concrete uploads against a 4-byte limit:
a 4-byte body is admitted with stored size 4, and a 5-byte body whose
advertised size is the falsy 0 is rejected 413 with the file removed. -/
theorem C5_size_limit_witness :
    ((createDocumentUpload sampleSha 4 7 c5ExactUpload [] false).httpStatus = 201 ∧
     (createDocumentUpload sampleSha 4 7 c5ExactUpload [] false).fileExists = true ∧
     (createDocumentUpload sampleSha 4 7 c5ExactUpload [] false).storedSize = some 4) ∧
    ((createDocumentUpload sampleSha 4 7 c5OverUpload [] false).httpStatus = 413 ∧
     (createDocumentUpload sampleSha 4 7 c5OverUpload [] false).errorCode =
       some "FILE_TOO_LARGE" ∧
     (createDocumentUpload sampleSha 4 7 c5OverUpload [] false).fileExists = false) :=
  ⟨(C5_size_limit sampleSha 4 7 c5ExactUpload [] false rfl).1
      (by decide) rfl (by decide) rfl,
   (C5_size_limit sampleSha 4 7 c5OverUpload [] false rfl).2 (by decide)⟩

/-- C6: an upload that passes the media-type and size checks but whose
digest collides with an existing (tenant, sha256) row is rejected 409
DUPLICATE_DOCUMENT with the freshly written quarantine file unlinked and
the document table unchanged — both when the pre-save query sees the
duplicate and when the duplicate only surfaces as the unique-constraint
violation at save time. -/
theorem C6_duplicate_reject (sha : List Nat → String) (maxBytes tenantId : Nat)
    (f : UploadedFile) (docs : List (Nat × String)) (raceConflict : Bool)
    (total : Nat)
    (hct : mediaTypeAccepted f.contentType = true)
    (hsize : ¬(f.size ≠ 0 ∧ maxBytes < f.size))
    (hstream : streamCount f.chunks maxBytes 0 = some total) :
    (docs.contains (tenantId, sha f.chunks.flatten) = true →
      (createDocumentUpload sha maxBytes tenantId f docs raceConflict).httpStatus = 409 ∧
      (createDocumentUpload sha maxBytes tenantId f docs raceConflict).errorCode =
        some "DUPLICATE_DOCUMENT" ∧
      (createDocumentUpload sha maxBytes tenantId f docs raceConflict).fileExists = false ∧
      (createDocumentUpload sha maxBytes tenantId f docs raceConflict).docs = docs) ∧
    (docs.contains (tenantId, sha f.chunks.flatten) = false → raceConflict = true →
      (createDocumentUpload sha maxBytes tenantId f docs raceConflict).httpStatus = 409 ∧
      (createDocumentUpload sha maxBytes tenantId f docs raceConflict).errorCode =
        some "DUPLICATE_DOCUMENT" ∧
      (createDocumentUpload sha maxBytes tenantId f docs raceConflict).fileExists = false ∧
      (createDocumentUpload sha maxBytes tenantId f docs raceConflict).docs = docs) := by
  constructor
  · intro hdup
    unfold createDocumentUpload
    rw [if_neg (by simp [hct]), if_neg hsize, hstream]
    dsimp only
    rw [if_pos hdup]
    exact ⟨rfl, rfl, rfl, rfl⟩
  · intro hdup hrace
    unfold createDocumentUpload
    rw [if_neg (by simp [hct]), if_neg hsize, hstream]
    dsimp only
    rw [if_neg (by rw [hdup]; exact Bool.false_ne_true), if_pos hrace]
    exact ⟨rfl, rfl, rfl, rfl⟩

/-- C6 witness: both halves at the concrete 4-byte upload: against a
table already holding its (tenant, digest) pair, and against an empty
table with the save racing into the unique-constraint violation. -/
theorem C6_duplicate_reject_witness :
    ((createDocumentUpload sampleSha 4 7 c5ExactUpload [(7, sampleSha c5ExactUpload.chunks.flatten)] false).httpStatus = 409 ∧
     (createDocumentUpload sampleSha 4 7 c5ExactUpload [(7, sampleSha c5ExactUpload.chunks.flatten)] false).errorCode =
       some "DUPLICATE_DOCUMENT" ∧
     (createDocumentUpload sampleSha 4 7 c5ExactUpload [(7, sampleSha c5ExactUpload.chunks.flatten)] false).fileExists = false ∧
     (createDocumentUpload sampleSha 4 7 c5ExactUpload [(7, sampleSha c5ExactUpload.chunks.flatten)] false).docs =
       [(7, sampleSha c5ExactUpload.chunks.flatten)]) ∧
    ((createDocumentUpload sampleSha 4 7 c5ExactUpload [] true).httpStatus = 409 ∧
     (createDocumentUpload sampleSha 4 7 c5ExactUpload [] true).errorCode =
       some "DUPLICATE_DOCUMENT" ∧
     (createDocumentUpload sampleSha 4 7 c5ExactUpload [] true).fileExists = false ∧
     (createDocumentUpload sampleSha 4 7 c5ExactUpload [] true).docs = ([] : List (Nat × String))) :=
  ⟨(C6_duplicate_reject sampleSha 4 7 c5ExactUpload
      [(7, sampleSha c5ExactUpload.chunks.flatten)] false 4 (by decide)
      (by decide) (by decide)).1 (by decide),
   (C6_duplicate_reject sampleSha 4 7 c5ExactUpload [] true 4 (by decide)
      (by decide) (by decide)).2 (by decide) rfl⟩

/-- C8: the claim says the 415 check consults a per-key allow-list of
accepted upload media types, defaulting to PDF for a key without one.
The source APIKey model has no such field and the check in
DocumentViewSet.create is the fixed pair application/pdf or
application/x-pdf, independent of the key.  Concretely: a key whose
claimed allow-list holds image/png would admit an image/png upload, yet
the code returns 415; and for a key with no allow-list the claimed
default (PDF) excludes application/x-pdf, yet the code admits it. -/
theorem C8_media_type_counterexample :
    (specMediaTypeAccepted c8SpecKeyPng "image/png" = true ∧
     (createDocumentUpload sampleSha 10 7 c8PngUpload [] false).httpStatus = 415) ∧
    (specMediaTypeAccepted c8SpecKeyDefault "application/x-pdf" = false ∧
     (createDocumentUpload sampleSha 10 7 c8XPdfUpload [] false).httpStatus = 201) := by
  decide

/-- C8 (amended): POST /v1/documents rejects an upload with 415
UNSUPPORTED_MEDIA_TYPE exactly when the declared media type is neither
application/pdf nor application/x-pdf; the API key carries no media-type
allow-list and has no influence on this check. -/
theorem C8_media_type_amended (sha : List Nat → String) (maxBytes tenantId : Nat)
    (f : UploadedFile) (docs : List (Nat × String)) (raceConflict : Bool) :
    ((createDocumentUpload sha maxBytes tenantId f docs raceConflict).httpStatus = 415 ↔
      mediaTypeAccepted f.contentType = false) ∧
    (mediaTypeAccepted f.contentType = false →
      (createDocumentUpload sha maxBytes tenantId f docs raceConflict).errorCode =
        some "UNSUPPORTED_MEDIA_TYPE") := by
  by_cases hm : mediaTypeAccepted f.contentType = true
  · have hne : (createDocumentUpload sha maxBytes tenantId f docs raceConflict).httpStatus ≠ 415 := by
      unfold createDocumentUpload
      rw [if_neg (by simp [hm])]
      dsimp only
      repeat' split
      all_goals simp
    exact ⟨⟨fun h => absurd h hne, fun h => by rw [hm] at h; cases h⟩,
      fun h => by rw [hm] at h; cases h⟩
  · have hm' : mediaTypeAccepted f.contentType = false := by
      revert hm; cases mediaTypeAccepted f.contentType <;> simp
    refine ⟨⟨fun _ => hm', fun _ => ?_⟩, fun _ => ?_⟩
    · unfold createDocumentUpload
      rw [if_pos (by simp [hm'])]
    · unfold createDocumentUpload
      rw [if_pos (by simp [hm'])]

/-- C8 witness: the amended rejection at the concrete image/png upload. -/
theorem C8_media_type_witness :
    (createDocumentUpload sampleSha 10 7 c8PngUpload [] false).errorCode =
      some "UNSUPPORTED_MEDIA_TYPE" :=
  (C8_media_type_amended sampleSha 10 7 c8PngUpload [] false).2 (by decide)

end DocRefinery
